import Mathlib

/-!
Verification of the Contact Center AI Assistant's session-orchestration core.

Shallow embedding, translated from the Python sources:
- `src/utils/websocket_manager.py` (connection manager),
- `src/agents/supervisor_agent.py` (routing classifier, fallback rotation),
- `src/routes/chat.py` (response extraction, execution bridge),
- `src/app.py` (execution bridge), `src/routes/auth.py` (session store).
-/

namespace WSModel

/-- A wire message `{"type": ..., "payload": ...}` handled by
`WebSocketManager` (src/utils/websocket_manager.py). -/
structure Msg where
  type : String
  payload : String
deriving DecidableEq

/-- `QUEUEABLE_MESSAGE_TYPES = {"message", "stream", "final", "data"}`:
message types that are queued for reconnection; control messages
(`connected`, `pong`, `error`, `complete`) are not queued. -/
def QUEUEABLE_MESSAGE_TYPES : List String := ["message", "stream", "final", "data"]

/-- Pointwise update of a map modelled as a function (a Python dict write). -/
def upd {α : Type} (f : String → α) (k : String) (v : α) : String → α :=
  fun k' => if k' = k then v else f k'

/-- State of a `WebSocketManager` instance: `active_connections` maps a
session id to the websocket bound to it (an abstract numeric handle; absence
is `none`), and `message_queue` is the `defaultdict(list)` `_message_queue`
(absent keys read as `[]`). -/
structure WSState where
  active_connections : String → Option Nat
  message_queue : String → List Msg

/-- `WebSocketManager.__init__`: empty connection map, empty queues. -/
def initWS : WSState :=
  { active_connections := fun _ => none, message_queue := fun _ => [] }

/-- `WebSocketManager.register`: bind a websocket for a NEW session; the
message queue is not read or written. -/
def register (session_id : String) (websocket : Nat) (st : WSState) : WSState :=
  { st with active_connections := upd st.active_connections session_id (some websocket) }

/-- `WebSocketManager.connect`: bind a websocket for a RECONNECTING session;
`_message_queue.pop(session_id, [])` atomically returns and clears the queued
messages. -/
def connect (session_id : String) (websocket : Nat) (st : WSState) :
    List Msg × WSState :=
  (st.message_queue session_id,
    { active_connections := upd st.active_connections session_id (some websocket),
      message_queue := upd st.message_queue session_id [] })

/-- `WebSocketManager.disconnect`: drop the binding if present (deleting an
absent key and setting it to `none` coincide in this map model). -/
def disconnect (session_id : String) (st : WSState) : WSState :=
  { st with active_connections := upd st.active_connections session_id none }

/-- `WebSocketManager.queue_message`: append to the session's queue when the
type is queueable, otherwise do nothing. -/
def queue_message (session_id : String) (message : Msg) (st : WSState) : WSState :=
  if message.type ∈ QUEUEABLE_MESSAGE_TYPES then
    { st with
      message_queue :=
        upd st.message_queue session_id (st.message_queue session_id ++ [message]) }
  else st

/-- `WebSocketManager.get_queued_count`: `len(self._message_queue.get(session_id, []))`. -/
def get_queued_count (session_id : String) (st : WSState) : Nat :=
  (st.message_queue session_id).length

/-- One call against the manager, for reasoning about call sequences. -/
inductive WSOp where
  | register (session_id : String) (websocket : Nat)
  | connect (session_id : String) (websocket : Nat)
  | disconnect (session_id : String)
  | queue (session_id : String) (message : Msg)

/-- Apply one call (the list `connect` returns is handed to the caller and
does not affect the manager's state). -/
def applyOp (st : WSState) : WSOp → WSState
  | .register sid w => register sid w st
  | .connect sid w => (connect sid w st).2
  | .disconnect sid => disconnect sid st
  | .queue sid m => queue_message sid m st

/-- Run a sequence of calls. -/
def runOps (st : WSState) : List WSOp → WSState
  | [] => st
  | op :: ops => runOps (applyOp st op) ops

/-- Traces in which `queue_message` is only invoked for a session with no
bound transport and `register` only for a session whose pending queue is
empty (a fresh session) — the discipline the callers follow. -/
def guardedFrom (st : WSState) : List WSOp → Prop
  | [] => True
  | op :: ops =>
    (match op with
     | .queue sid _ => st.active_connections sid = none
     | .register sid _ => st.message_queue sid = []
     | _ => True) ∧ guardedFrom (applyOp st op) ops

/-- The spec's ConnectionRecord invariant: a queue is non-empty only while no
transport is bound. -/
def queueInv (st : WSState) : Prop :=
  ∀ s, st.message_queue s ≠ [] → st.active_connections s = none

end WSModel

namespace Routing

/-- Python `\w` on ASCII input: letters, digits, underscore. -/
def isWordChar (c : Char) : Bool :=
  c.isAlpha || c.isDigit || c = '_'

/-- A `\b` boundary holds to the left of a word character when the previous
character (if any) is not a word character. -/
def leftBoundary (prev : Option Char) : Bool :=
  match prev with
  | none => true
  | some c => !isWordChar c

/-- A `\b` boundary holds to the right of a word character when the next
character (if any) is not a word character. -/
def rightBoundary (rest : List Char) : Bool :=
  match rest with
  | [] => true
  | c :: _ => !isWordChar c

/-- `re.search` over one pattern-at-a-position check, threading the previous
character so the check can test a left `\b` boundary. -/
def searchAt (check : Option Char → List Char → Bool) :
    Option Char → List Char → Bool
  | prev, [] => check prev []
  | prev, c :: rest => check prev (c :: rest) || searchAt check (some c) rest

/-- Consume exactly `n` digit characters, returning what follows. -/
def takeDigits : Nat → List Char → Option (List Char)
  | 0, l => some l
  | _ + 1, [] => none
  | n + 1, c :: rest => if c.isDigit then takeDigits n rest else none

/-- A date separator: dash, slash or dot. -/
def isDateSep (c : Char) : Bool :=
  c = '-' || c = '/' || c = '.'

/-- Match digits-separator-digits-separator-digits (`a`, `b`, `c` digits, each separator one of dash, slash, dot) followed by a word boundary, at the head of the input. -/
def matchDateShape (a b c : Nat) (l : List Char) : Bool :=
  match takeDigits a l with
  | none => false
  | some l1 =>
    match l1 with
    | [] => false
    | s1 :: l2 =>
      isDateSep s1 &&
        (match takeDigits b l2 with
         | none => false
         | some l3 =>
           match l3 with
           | [] => false
           | s2 :: l4 =>
             isDateSep s2 &&
               (match takeDigits c l4 with
                | none => false
                | some l5 => rightBoundary l5))

/-- the first date pattern of `is_db_query` (1-2 digits, separator, 1-2 digits, separator, 2-4 digits, within word boundaries) matched at one position. -/
def dateCheck1 (prev : Option Char) (l : List Char) : Bool :=
  leftBoundary prev &&
    ([1, 2].any fun a => [1, 2].any fun b => [2, 3, 4].any fun c =>
      matchDateShape a b c l)

/-- the second date pattern of `is_db_query` (4 digits, separator, 1-2 digits, separator, 1-2 digits, within word boundaries) matched at one position. -/
def dateCheck2 (prev : Option Char) (l : List Char) : Bool :=
  leftBoundary prev &&
    ([1, 2].any fun b => [1, 2].any fun c => matchDateShape 4 b c l)

/-- `\b\d{10,12}\b` matched at one position (phone numbers or IDs). -/
def longIdCheck (prev : Option Char) (l : List Char) : Bool :=
  leftBoundary prev &&
    ([10, 11, 12].any fun n =>
      match takeDigits n l with
      | none => false
      | some rest => rightBoundary rest)

/-- `how many (of|are|were)\b` matched at one position. -/
def howManyCheck (_prev : Option Char) (l : List Char) : Bool :=
  ["how many of".data, "how many are".data,
   "how many were".data].any fun p =>
    p.isPrefixOf l && rightBoundary (l.drop p.length)

/-- Python `needle in haystack` substring containment. -/
def containsSub (hay needle : List Char) : Bool :=
  needle.isPrefixOf hay ||
    (match hay with
     | [] => false
     | _ :: t => containsSub t needle)

/-- ASCII lowering, matching `str.lower()` on the ASCII inputs involved. -/
def lowerText (l : List Char) : List Char :=
  l.map Char.toLower

/-- `follow_up_indicators` from `is_db_query` (src/agents/supervisor_agent.py). -/
def follow_up_indicators : List (List Char) :=
  ["those".data, "them".data, "these".data,
   "that".data, "the same".data, "which ones".data,
   "of them".data, "of those".data, "from those".data,
   "from them".data, "among them".data, "out of".data,
   "breakdown".data, "split".data, "categorize".data,
   "group by".data]

/-- `_last_route_was_db.get(thread_id, False)`: the per-thread routing state,
modelled as an association list. -/
def lastRouteGet (state : List (String × Bool)) (thread_id : String) : Bool :=
  match state.lookup thread_id with
  | some b => b
  | none => false

/-- `is_db_query(text, thread_id)` from src/agents/supervisor_agent.py:
follow-up detection against the per-thread routing state, then date, long-id,
count, status+entity, call-log/customer and direction heuristics. -/
def is_db_query (text : String) (thread_id : Option String)
    (state : List (String × Bool)) : Bool :=
  if text = "" then false
  else
    let t := lowerText text.data
    let followUp :=
      match thread_id with
      | some tid =>
        lastRouteGet state tid &&
          (follow_up_indicators.any (fun ind => containsSub t ind) ||
            searchAt howManyCheck none t)
      | none => false
    if followUp then true
    else if (searchAt dateCheck1 none t || searchAt dateCheck2 none t) &&
        (["call".data, "calls".data, "interaction".data,
          "log".data, "logs".data].any fun w => containsSub t w) then
      true
    else if searchAt longIdCheck none t then true
    else if (["how many".data, "number of".data,
          "count".data, "total".data].any fun x => containsSub t x) &&
        (["call".data, "calls".data, "ticket".data,
          "tickets".data, "customer".data].any fun e =>
          containsSub t e) then
      true
    else if (["success".data, "successful".data,
          "completed".data, "failed".data, "missed".data,
          "answered".data].any fun s => containsSub t s) &&
        (["call".data, "calls".data, "record".data,
          "records".data, "customer".data, "ticket".data,
          "interaction".data].any fun e => containsSub t e) then
      true
    else if ["call log".data, "call logs".data,
          "customer".data, "customers".data].any fun w =>
          containsSub t w then
      true
    else if ["incoming".data, "outgoing".data,
          "inbound".data, "outbound".data].any fun d =>
          containsSub t d then
      true
    else false

/-- The routing-state write in `SupervisorProxy.ainvoke`
(`_last_route_was_db[thread_id] = requires_db`, skipped when there is no
thread id). -/
def routeUpdate (state : List (String × Bool)) (thread_id : Option String)
    (decision : Bool) : List (String × Bool) :=
  match thread_id with
  | some tid => (tid, decision) :: state.eraseP (fun p => p.1 == tid)
  | none => state

end Routing

namespace Resilience

/-- Outcome of one agent invocation: a result, or a raised exception carrying
its message string. -/
inductive InvokeRes where
  | ok (v : String)
  | err (msg : String)
deriving DecidableEq

/-- The transient-class test in `SupervisorProxy.ainvoke`:
`"model_not_found" in str(e).lower() or "does not have access" in str(e).lower()`. -/
def isModelUnavailable (msg : String) : Bool :=
  Routing.containsSub (Routing.lowerText msg.data) "model_not_found".data ||
    Routing.containsSub (Routing.lowerText msg.data) "does not have access".data

/-- `FALLBACK_MODELS` default: `"gpt-4o-mini,gpt-4o,gpt-4"` split on commas. -/
def FALLBACK_MODELS : List String := ["gpt-4o-mini", "gpt-4o", "gpt-4"]

/-- Result of `SupervisorProxy.ainvoke` together with how many recovery
attempts (rotations to a fallback model + reconstruction + replay) happened. -/
structure AinvokeOut where
  result : InvokeRes
  rotations : Nat
deriving DecidableEq

/-- The fallback loop in `SupervisorProxy.ainvoke`: walk `FALLBACK_MODELS`,
skipping an entry equal to the current (global) `model_name`; for each other
entry rotate to it, rebuild the agents and replay; any failure is swallowed
by `except Exception: continue`; when the list is exhausted the original
error is re-raised. `invoke` abstracts replaying the request against the
agents built on a given model. -/
def tryFallbacks (invoke : String → InvokeRes) (origErr : String) :
    List String → String → Nat → AinvokeOut
  | [], _, n => ⟨.err origErr, n⟩
  | fm :: rest, current, n =>
    if fm = current then tryFallbacks invoke origErr rest current n
    else
      match invoke fm with
      | .ok v => ⟨.ok v, n + 1⟩
      | .err _ => tryFallbacks invoke origErr rest fm (n + 1)

/-- `SupervisorProxy.ainvoke`'s error handling: invoke on the current model;
on an exception of the model-unavailable class run the fallback loop,
otherwise re-raise. -/
def proxy_ainvoke (invoke : String → InvokeRes) (model_name : String)
    (fallbacks : List String) : AinvokeOut :=
  match invoke model_name with
  | .ok v => ⟨.ok v, 0⟩
  | .err e =>
    if isModelUnavailable e then tryFallbacks invoke e fallbacks model_name 0
    else ⟨.err e, 0⟩

end Resilience

namespace SupervisorState

/-- A compiled agent handle: the model it was built on and the identity of
the checkpointer it was compiled with (`MemorySaver` object identity,
modelled as a number). -/
structure AgentHandle where
  model : String
  checkpointer : Nat
deriving DecidableEq

/-- The module-level mutable state of src/agents/supervisor_agent.py:
`model_name`, the lazy caches `_model`, `_data_agent`, `_supervisor_agent`,
and the module-lifetime `_checkpointer = MemorySaver()`. A `ChatOpenAI`
instance is identified by its model name. -/
structure ModuleState where
  model_name : String
  lazy_model : Option String
  lazy_data_agent : Option AgentHandle
  lazy_supervisor_agent : Option AgentHandle
  checkpointer : Nat

/-- `_rotate_to_model`: set the global `model_name` and clear the three lazy
caches; `_checkpointer` is not touched. -/
def rotate_to_model (new_model : String) (st : ModuleState) : ModuleState :=
  { st with
    model_name := new_model
    lazy_model := none
    lazy_data_agent := none
    lazy_supervisor_agent := none }

/-- `get_model`: return the cached `ChatOpenAI` or build one from the current
`model_name`. -/
def get_model (st : ModuleState) : String × ModuleState :=
  match st.lazy_model with
  | some m => (m, st)
  | none => (st.model_name, { st with lazy_model := some st.model_name })

/-- `create_data_agent(model, checkpointer=...)`: the data agent is compiled
against the checkpointer it is given. -/
def create_data_agent (model : String) (ckpt : Nat) : AgentHandle :=
  ⟨model, ckpt⟩

/-- `get_data_agent`: return the cached data agent or build one from
`get_model()` with the shared `_checkpointer`. -/
def get_data_agent (st : ModuleState) : AgentHandle × ModuleState :=
  match st.lazy_data_agent with
  | some a => (a, st)
  | none =>
    let (m, st1) := get_model st
    let a := create_data_agent m st1.checkpointer
    (a, { st1 with lazy_data_agent := some a })

/-- `create_supervisor(...).compile(checkpointer=_checkpointer)`: the rebuilt
supervisor in the fallback path is compiled against the shared
`_checkpointer`. -/
def compile_supervisor (model : String) (ckpt : Nat) : AgentHandle :=
  ⟨model, ckpt⟩

end SupervisorState

namespace Bridge

/-- What a call to `future.result(timeout)` does for a task that completes at
time `completesAt` (`none` for a task that never completes). -/
inductive WaitOutcome where
  | completes (t : Nat)
  | timesOut (bound : Nat)
  | blocksForever
deriving DecidableEq

/-- `concurrent.futures.Future.result`: with no timeout, wait until the task
completes (forever if it never does); with a timeout, raise `TimeoutError`
once the bound elapses. -/
def futureResult (timeout : Option Nat) (completesAt : Option Nat) : WaitOutcome :=
  match completesAt, timeout with
  | some t, none => .completes t
  | some t, some bound => if t ≤ bound then .completes t else .timesOut bound
  | none, some bound => .timesOut bound
  | none, none => .blocksForever

/-- The timeout argument `run_async` in src/routes/chat.py passes to
`future.result()`: none (the call is `future.result()`, commented
"No timeout - wait until complete"). -/
def chat_run_async_timeout : Option Nat := none

/-- The timeout argument `run_async` in src/app.py passes to
`future.result()`: also none, although the adjacent comment reads
"2 minute timeout". -/
def app_run_async_timeout : Option Nat := none

/-- `run_async(coro)` in src/routes/chat.py, viewed as the wait it performs
for a task completing at `completesAt`. -/
def run_async_wait (completesAt : Option Nat) : WaitOutcome :=
  futureResult chat_run_async_timeout completesAt

/-- `run_async(coro)` in src/app.py, same shape. -/
def app_run_async_wait (completesAt : Option Nat) : WaitOutcome :=
  futureResult app_run_async_timeout completesAt

end Bridge

namespace Auth

/-- An HTTP reply from the auth blueprint: the JSON body summarised as an
optional error text, and the status code. -/
structure Resp where
  error : Option String
  code : Nat
deriving DecidableEq

/-- The `SESSIONS` store: token to username (the login-time field is not
relevant to eviction and is kept with the username). -/
def Sessions := List (String × String)

/-- `logout` from src/routes/auth.py: missing token is a 400; a known token
is deleted and answered 200; an unknown token is answered 400
"Invalid token" with the store unchanged. -/
def logout (sessions : List (String × String)) (token : Option String) :
    Resp × List (String × String) :=
  match token with
  | none => (⟨some "Token is required", 400⟩, sessions)
  | some tok =>
    if tok = "" then (⟨some "Token is required", 400⟩, sessions)
    else if (sessions.lookup tok).isSome then
      (⟨none, 200⟩, sessions.eraseP (fun p => p.1 == tok))
    else
      (⟨some "Invalid token", 400⟩, sessions)

end Auth

namespace Chat

/-- A LangChain conversation message as `extract_best_response` sees it:
a `HumanMessage`, an `AIMessage`, or any other message class (tool, system);
each carries its `content` string. -/
inductive ChatMsg where
  | human (content : String)
  | ai (content : String)
  | other (content : String)
deriving DecidableEq

/-- `getattr(msg, 'content', ...)`. -/
def content : ChatMsg → String
  | .human c => c
  | .ai c => c
  | .other c => c

/-- `isinstance(msg, HumanMessage)`. -/
def isHuman : ChatMsg → Bool
  | .human _ => true
  | _ => false

/-- `isinstance(msg, AIMessage)`. -/
def isAI : ChatMsg → Bool
  | .ai _ => true
  | _ => false

/-- Python `str.strip()` whitespace. -/
def isSpaceChar (c : Char) : Bool :=
  c = ' ' || c = '\t' || c = '\n' || c = '\r' || c = '\x0b' || c = '\x0c'

/-- `content.strip()`. -/
def stripChars (l : List Char) : List Char :=
  ((l.dropWhile isSpaceChar).reverse.dropWhile isSpaceChar).reverse

/-- `'transferring' in content.lower()`. -/
def hasTransferring (c : String) : Bool :=
  Routing.containsSub (Routing.lowerText c.data) "transferring".data

/-- A parsed JSON value (model of what `json.loads` yields; the numeric value
is kept as its integer part, which is all the surrounding code inspects). -/
inductive Json where
  | null
  | bool (b : Bool)
  | num (i : Int)
  | str (s : String)
  | arr (elems : List Json)
  | obj (fields : List (String × Json))

/-- JSON whitespace. -/
def isJsonWs (c : Char) : Bool :=
  c = ' ' || c = '\t' || c = '\n' || c = '\r'

/-- Skip JSON whitespace. -/
def skipWs (l : List Char) : List Char :=
  l.dropWhile isJsonWs

/-- The sixteen hex digits, in value order. -/
def hexDigits : List Char := "0123456789abcdef".data

/-- Hex digit value: position in the table, case-insensitively. -/
def hexVal (c : Char) : Option Nat :=
  hexDigits.indexOf? c.toLower

/-- Body of a JSON string after the opening quote: characters up to the
closing quote, decoding the escape sequences `json.loads` accepts. -/
def parseStringBody : List Char → Option (List Char × List Char)
  | [] => none
  | '"' :: rest => some ([], rest)
  | '\\' :: 'u' :: a :: b :: c :: d :: rest =>
    match hexVal a, hexVal b, hexVal c, hexVal d with
    | some x, some y, some z, some w =>
      (parseStringBody rest).map fun (s, r) =>
        (Char.ofNat (((x * 16 + y) * 16 + z) * 16 + w) :: s, r)
    | _, _, _, _ => none
  | '\\' :: e :: rest =>
    let dec : Option Char :=
      if e = '"' then some '"'
      else if e = '\\' then some '\\'
      else if e = '/' then some '/'
      else if e = 'b' then some '\x08'
      else if e = 'f' then some '\x0c'
      else if e = 'n' then some '\n'
      else if e = 'r' then some '\r'
      else if e = 't' then some '\t'
      else none
    match dec with
    | some ch => (parseStringBody rest).map fun (s, r) => (ch :: s, r)
    | none => none
  | c :: rest =>
    (parseStringBody rest).map fun (s, r) => (c :: s, r)

/-- Leading run of digits and what follows. -/
def spanDigits (l : List Char) : List Char × List Char :=
  (l.takeWhile Char.isDigit, l.dropWhile Char.isDigit)

/-- Digits to a natural number. -/
def digitsToNat (ds : List Char) : Nat :=
  ds.foldl (fun acc c => acc * 10 + (c.toNat - '0'.toNat)) 0

/-- The integer-part digits of a JSON number must be `0` alone or start with
a nonzero digit. -/
def intPartOk (ds : List Char) : Bool :=
  match ds with
  | [] => false
  | [_] => true
  | d :: _ => d ≠ '0'

/-- Fractional part: nothing, or a dot followed by at least one digit;
returns the remainder, or `none` on a bare dot. -/
def chewFrac (l : List Char) : Option (List Char) :=
  match l with
  | '.' :: rest =>
    let (fs, r) := spanDigits rest
    if fs.isEmpty then none else some r
  | _ => some l

/-- Exponent part: nothing, or `e`/`E`, an optional sign, and at least one
digit; returns the remainder, or `none` on a malformed exponent. -/
def chewExp (l : List Char) : Option (List Char) :=
  match l with
  | 'e' :: rest | 'E' :: rest =>
    let signless := match rest with
      | '+' :: r => r
      | '-' :: r => r
      | _ => rest
    let (es, r) := spanDigits signless
    if es.isEmpty then none else some r
  | _ => some l

/-- A JSON number without its sign; only the integer part is retained. -/
def parseUnsigned (l : List Char) : Option (Json × List Char) :=
  let (ds, afterInt) := spanDigits l
  if intPartOk ds then
    match chewFrac afterInt with
    | none => none
    | some afterFrac =>
      match chewExp afterFrac with
      | none => none
      | some rest => some (.num (Int.ofNat (digitsToNat ds)), rest)
  else none

/-- Negate a parsed number (identity on anything else). -/
def negNum : Json → Json
  | .num i => .num (-i)
  | j => j

/-- A JSON number: optional minus, an integer part (`0` or a nonzero-led
digit run), optional fraction, optional exponent. -/
def parseNumber (l : List Char) : Option (Json × List Char) :=
  match l with
  | '-' :: rest => (parseUnsigned rest).map fun p => (negNum p.1, p.2)
  | _ => parseUnsigned l

/-- Recursive-descent JSON value parser with fuel (model of `json.loads`).
After a comma inside an array or object the remaining elements are parsed by
re-entering the parser on the bracketed tail, so a single structurally
recursive function suffices; trailing commas are rejected as `json.loads`
rejects them. -/
def parseV : Nat → List Char → Option (Json × List Char)
  | 0, _ => none
  | fuel + 1, input =>
    let trimmed := skipWs input
    if "null".data.isPrefixOf trimmed then some (.null, trimmed.drop 4)
    else if "true".data.isPrefixOf trimmed then some (.bool true, trimmed.drop 4)
    else if "false".data.isPrefixOf trimmed then
      some (.bool false, trimmed.drop 5)
    else
    match trimmed with
    | '"' :: rest =>
      (parseStringBody rest).map fun (s, r) => (.str (String.mk s), r)
    | '[' :: rest =>
      (match skipWs rest with
       | ']' :: r => some (.arr [], r)
       | body =>
         match parseV fuel body with
         | none => none
         | some (v, r1) =>
           match skipWs r1 with
           | ',' :: r2 =>
             (match skipWs r2 with
              | ']' :: _ => none
              | _ =>
                match parseV fuel ('[' :: r2) with
                | some (.arr elems, r3) => some (.arr (v :: elems), r3)
                | _ => none)
           | ']' :: r2 => some (.arr [v], r2)
           | _ => none)
    | '\x7b' :: rest =>
      (match skipWs rest with
       | '\x7d' :: r => some (.obj [], r)
       | '"' :: r =>
         (match parseStringBody r with
          | none => none
          | some (k, r1) =>
            match skipWs r1 with
            | ':' :: r2 =>
              (match parseV fuel r2 with
               | none => none
               | some (v, r3) =>
                 match skipWs r3 with
                 | ',' :: r4 =>
                   (match skipWs r4 with
                    | '"' :: _ =>
                      (match parseV fuel ('\x7b' :: r4) with
                       | some (.obj fs, r5) =>
                         some (.obj ((String.mk k, v) :: fs), r5)
                       | _ => none)
                    | _ => none)
                 | '\x7d' :: r4 => some (.obj [(String.mk k, v)], r4)
                 | _ => none)
            | _ => none)
       | _ => none)
    | rest => parseNumber rest

/-- `json.loads(content)`: parse one value, allow trailing whitespace only. -/
def json_loads (s : String) : Option Json :=
  match parseV (s.data.length + 1) s.data with
  | some (v, rest) => if skipWs rest = [] then some v else none
  | none => none

/-- `'_id' in data[0]` for a parsed object. -/
def objHasId : Json → Bool
  | .obj fields => fields.any fun p => p.1 == "_id"
  | _ => false

/-- `isinstance(data[0], dict)`. -/
def isObj : Json → Bool
  | .obj _ => true
  | _ => false

/-- The JSON test in `extract_best_response`: the stripped content starts
with a bracket, parses as a JSON list whose first element is a dict without
the key `_id`. -/
def jsonFormattedNoId (c : String) : Bool :=
  match stripChars c.data with
  | '[' :: _ =>
    (match json_loads c with
     | some (.arr (x :: _)) => isObj x && !objHasId x
     | _ => false)
  | _ => false

/-- Step 1 of `extract_best_response`: index of the last `HumanMessage`. -/
def lastHumanIdx (messages : List ChatMsg) : Option Nat :=
  (List.range messages.length).foldl
    (fun acc i =>
      match messages[i]? with
      | some m => if isHuman m then some i else acc
      | none => acc)
    none

/-- Step 2: the messages after the last `HumanMessage` (all messages when
there is none). -/
def recentOf (messages : List ChatMsg) : List ChatMsg :=
  match lastHumanIdx messages with
  | some i => messages.drop (i + 1)
  | none => messages

/-- Step 3's loop over `reversed(recent_messages)`: returns the pair
(formatted JSON response if the loop broke on one, the tracked last text
response). A message is skipped unless it is a non-empty, non-"transferring"
`AIMessage`; a qualifying JSON-without-`_id` content breaks the loop. -/
def bestLoop : List ChatMsg → Option String → Option String × Option String
  | [], lastText => (none, lastText)
  | m :: rest, lastText =>
    if !isAI m then bestLoop rest lastText
    else
      let c := content m
      if (stripChars c.data).isEmpty then bestLoop rest lastText
      else if hasTransferring c then bestLoop rest lastText
      else if jsonFormattedNoId c then (some c, lastText)
      else bestLoop rest (match lastText with
        | none => some c
        | some t => some t)

/-- `extract_best_response` from src/routes/chat.py. -/
def extract_best_response (messages : List ChatMsg) : String :=
  let recent := recentOf messages
  match bestLoop recent.reverse none with
  | (some f, _) => f
  | (none, some t) => t
  | (none, none) =>
    match recent.getLast? with
    | some m => content m
    | none => ""

/-- An `AIMessage` that the JSON branch would select: non-empty, not a
transfer message, and a JSON array whose first element is a dict without
`_id`. -/
def qualifiesJson (m : ChatMsg) : Bool :=
  isAI m && !(stripChars (content m).data).isEmpty &&
    !hasTransferring (content m) && jsonFormattedNoId (content m)

/-- An `AIMessage` that the text fallback would keep: non-empty and not a
transfer message. -/
def qualifiesText (m : ChatMsg) : Bool :=
  isAI m && !(stripChars (content m).data).isEmpty &&
    !hasTransferring (content m)

/-- The amended specification of `extract_best_response`, written from its
observable behaviour: among the messages after the last `HumanMessage`,
the most recent non-empty non-"transferring" `AIMessage` carrying a JSON
array whose first element lacks `_id`; otherwise the most recent non-empty
non-"transferring" `AIMessage`; otherwise the last message's content;
otherwise the empty string. -/
def specExtract (messages : List ChatMsg) : String :=
  let recent := recentOf messages
  match recent.reverse.find? qualifiesJson with
  | some m => content m
  | none =>
    match recent.reverse.find? qualifiesText with
    | some m => content m
    | none =>
      match recent.getLast? with
      | some m => content m
      | none => ""

/-- The choice `bestLoop` induces before the absolute fallback: the formatted
JSON response if the loop broke on one, else the tracked text response. -/
def chooseOf (p : Option String × Option String) : Option String :=
  match p with
  | (some f, _) => some f
  | (none, t) => t

end Chat


/-! ## Theorems -/

namespace WSModel

lemma upd_same {α : Type} (f : String → α) (k : String) (v : α) :
    upd f k v k = v := by
  simp [upd]

lemma upd_other {α : Type} (f : String → α) (k k' : String) (v : α)
    (h : k' ≠ k) : upd f k v k' = f k' := by
  simp [upd, h]

lemma queue_fold_append (sid : String) (msgs : List Msg) (st : WSState)
    (h : ∀ m ∈ msgs, m.type ∈ QUEUEABLE_MESSAGE_TYPES) :
    (msgs.foldl (fun s m => queue_message sid m s) st).message_queue sid =
      st.message_queue sid ++ msgs := by
  induction msgs generalizing st with
  | nil => simp
  | cons m rest ih =>
    have hm : m.type ∈ QUEUEABLE_MESSAGE_TYPES := h m (List.mem_cons_self m rest)
    have hrest : ∀ x ∈ rest, x.type ∈ QUEUEABLE_MESSAGE_TYPES :=
      fun x hx => h x (List.mem_cons_of_mem m hx)
    simp only [List.foldl_cons]
    rw [ih _ hrest]
    simp [queue_message, hm, upd_same]

lemma disconnect_queue (sid : String) (st : WSState) :
    (disconnect sid st).message_queue = st.message_queue := rfl

end WSModel

/-- Claim C1: after `disconnect(session_id)`, queueing N messages of a
queueable kind for that session and then reconnecting via
`WebSocketManager.connect` returns exactly those N messages in order, each
once, and `get_queued_count` is 0 afterwards — provided the session's queue
was empty before the disconnect (the state the disconnect/reconnect protocol
maintains). -/
theorem claim_C1_disconnect_queue_reconnect (st : WSModel.WSState)
    (sid : String) (ws : Nat) (msgs : List WSModel.Msg)
    (hempty : st.message_queue sid = [])
    (hq : ∀ m ∈ msgs, m.type ∈ WSModel.QUEUEABLE_MESSAGE_TYPES) :
    (WSModel.connect sid ws
        (msgs.foldl (fun s m => WSModel.queue_message sid m s)
          (WSModel.disconnect sid st))).1 = msgs ∧
      WSModel.get_queued_count sid
        (WSModel.connect sid ws
          (msgs.foldl (fun s m => WSModel.queue_message sid m s)
            (WSModel.disconnect sid st))).2 = 0 := by
  constructor
  · show (msgs.foldl (fun s m => WSModel.queue_message sid m s)
      (WSModel.disconnect sid st)).message_queue sid = msgs
    rw [WSModel.queue_fold_append sid msgs _ hq]
    rw [WSModel.disconnect_queue]
    rw [hempty]
    simp
  · show ((WSModel.upd (msgs.foldl (fun s m => WSModel.queue_message sid m s)
      (WSModel.disconnect sid st)).message_queue sid []) sid).length = 0
    rw [WSModel.upd_same]
    rfl

/-- Claim C1 witness: a concrete disconnect, two queued data messages, and a
reconnect. -/
theorem claim_C1_witness :
    (WSModel.connect "s1" 7
        ([(⟨"message", "a"⟩ : WSModel.Msg), ⟨"stream", "b"⟩].foldl
          (fun s m => WSModel.queue_message "s1" m s)
          (WSModel.disconnect "s1" WSModel.initWS))).1 =
        [(⟨"message", "a"⟩ : WSModel.Msg), ⟨"stream", "b"⟩] ∧
      WSModel.get_queued_count "s1"
        (WSModel.connect "s1" 7
          ([(⟨"message", "a"⟩ : WSModel.Msg), ⟨"stream", "b"⟩].foldl
            (fun s m => WSModel.queue_message "s1" m s)
            (WSModel.disconnect "s1" WSModel.initWS))).2 = 0 :=
  claim_C1_disconnect_queue_reconnect WSModel.initWS "s1" 7
    [⟨"message", "a"⟩, ⟨"stream", "b"⟩] rfl (by decide)

namespace WSModel

lemma guarded_preserves (ops : List WSOp) :
    ∀ st : WSState, queueInv st → guardedFrom st ops → queueInv (runOps st ops) := by
  induction ops with
  | nil => intro st hinv _; exact hinv
  | cons op ops ih =>
    intro st hinv hg
    obtain ⟨hop, hrest⟩ := hg
    refine ih (applyOp st op) ?_ hrest
    intro s hs
    cases op with
    | register sid w =>
      by_cases hssid : s = sid
      · subst hssid
        exact absurd (by simpa [applyOp, register] using hs) (by simp [hop])
      · have hq : (applyOp st (.register sid w)).message_queue s =
            st.message_queue s := rfl
        have := hinv s (by simpa [hq] using hs)
        simpa [applyOp, register, upd_other _ _ _ _ hssid] using this
    | connect sid w =>
      by_cases hssid : s = sid
      · subst hssid
        exact absurd hs (by simp [applyOp, connect, upd_same])
      · have := hinv s
          (by simpa [applyOp, connect, upd_other _ _ _ _ hssid] using hs)
        simpa [applyOp, connect, upd_other _ _ _ _ hssid] using this
    | disconnect sid =>
      by_cases hssid : s = sid
      · subst hssid
        simp [applyOp, disconnect, upd_same]
      · have hq : (applyOp st (.disconnect sid)).message_queue s =
            st.message_queue s := rfl
        have := hinv s (by simpa [hq] using hs)
        simpa [applyOp, disconnect, upd_other _ _ _ _ hssid] using this
    | queue sid m =>
      by_cases hqm : m.type ∈ QUEUEABLE_MESSAGE_TYPES
      · by_cases hssid : s = sid
        · subst hssid
          simpa [applyOp, queue_message, hqm] using hop
        · have hq : (applyOp st (.queue sid m)).message_queue s =
              st.message_queue s := by
            simp [applyOp, queue_message, hqm, upd_other _ _ _ _ hssid]
          have := hinv s (by simpa [hq] using hs)
          simpa [applyOp, queue_message, hqm] using this
      · have := hinv s (by simpa [applyOp, queue_message, hqm] using hs)
        simpa [applyOp, queue_message, hqm] using this

end WSModel

/-- Claim C3 (amended): under sequences of `register`, `connect`,
`disconnect` and `queue_message` in which `queue_message` is only invoked
while the session has no bound transport and `register` only for sessions
with an empty pending queue, every reachable state has a non-empty queue only
where no transport is bound. Unrestricted call sequences violate the
invariant (see the counterexample). -/
theorem claim_C3_queue_only_while_disconnected (ops : List WSModel.WSOp)
    (hg : WSModel.guardedFrom WSModel.initWS ops) :
    WSModel.queueInv (WSModel.runOps WSModel.initWS ops) :=
  WSModel.guarded_preserves ops WSModel.initWS (fun _ hs => absurd rfl hs) hg

/-- Claim C3 witness: a disconnect followed by a guarded queue, after which
the session indeed has no transport. -/
theorem claim_C3_witness :
    (WSModel.runOps WSModel.initWS
        [WSModel.WSOp.disconnect "s",
         WSModel.WSOp.queue "s" ⟨"message", "x"⟩]).active_connections "s" =
      none :=
  claim_C3_queue_only_while_disconnected
    [WSModel.WSOp.disconnect "s", WSModel.WSOp.queue "s" ⟨"message", "x"⟩]
    ⟨trivial, by decide, trivial⟩ "s" (by decide)

/-- Claim C3 counterexample: the invariant fails for unrestricted sequences.
`register` then `queue_message` (the manager queues queueable messages even
while a transport is bound), and `queue_message` then `register` (`register`
does not flush), both end with a non-empty queue and a bound transport. -/
theorem claim_C3_counterexample :
    (WSModel.runOps WSModel.initWS
        [WSModel.WSOp.register "s" 1,
         WSModel.WSOp.queue "s" ⟨"message", "x"⟩]).message_queue "s" =
        [⟨"message", "x"⟩] ∧
      (WSModel.runOps WSModel.initWS
        [WSModel.WSOp.register "s" 1,
         WSModel.WSOp.queue "s" ⟨"message", "x"⟩]).active_connections "s" =
        some 1 ∧
      (WSModel.runOps WSModel.initWS
        [WSModel.WSOp.queue "s" ⟨"message", "x"⟩,
         WSModel.WSOp.register "s" 1]).message_queue "s" =
        [⟨"message", "x"⟩] ∧
      (WSModel.runOps WSModel.initWS
        [WSModel.WSOp.queue "s" ⟨"message", "x"⟩,
         WSModel.WSOp.register "s" 1]).active_connections "s" = some 1 := by
  refine ⟨?_, ?_, ?_, ?_⟩ <;> decide

/-- Claim C4: a message of a control kind (`connected`, `pong`, `error`,
`complete`) given to `queue_message` while the session has no transport
leaves the manager's state — in particular the pending queue — unchanged, so
a later `connect` returns only what was queued before. -/
theorem claim_C4_control_never_queued (st : WSModel.WSState) (sid : String)
    (ws : Nat) (m : WSModel.Msg)
    (_hconn : st.active_connections sid = none)
    (hctl : m.type = "connected" ∨ m.type = "pong" ∨ m.type = "error" ∨
      m.type = "complete") :
    WSModel.queue_message sid m st = st ∧
      (WSModel.connect sid ws (WSModel.queue_message sid m st)).1 =
        st.message_queue sid := by
  have hnq : m.type ∉ WSModel.QUEUEABLE_MESSAGE_TYPES := by
    rcases hctl with h | h | h | h <;> rw [h] <;> decide
  constructor
  · simp [WSModel.queue_message, hnq]
  · simp [WSModel.connect, WSModel.queue_message, hnq]

/-- Claim C4 witness: a `pong` control message on a disconnected session. -/
theorem claim_C4_witness :
    WSModel.queue_message "s" ⟨"pong", "p"⟩ WSModel.initWS = WSModel.initWS ∧
      (WSModel.connect "s" 3
        (WSModel.queue_message "s" ⟨"pong", "p"⟩ WSModel.initWS)).1 =
        WSModel.initWS.message_queue "s" :=
  claim_C4_control_never_queued WSModel.initWS "s" 3 ⟨"pong", "p"⟩ rfl
    (Or.inr (Or.inl rfl))

/-- Claim C10: `WebSocketManager.register` neither reads nor writes the
pending queue: the whole queue map is unchanged, and a later
`WebSocketManager.connect` for the session returns exactly the
previously queued messages. -/
theorem claim_C10_register_queue_frame (st : WSModel.WSState) (sid : String)
    (ws ws' : Nat) :
    (WSModel.register sid ws st).message_queue = st.message_queue ∧
      (WSModel.connect sid ws' (WSModel.register sid ws st)).1 =
        st.message_queue sid :=
  ⟨rfl, rfl⟩

/-- Claim C6: when the stored routing state says the previous turn on the
thread delegated, any utterance containing one of the follow-up markers of
`is_db_query` (on its lowercased text) or matching the
`how many (of|are|were)` pattern classifies as a delegated DB query. -/
theorem claim_C6_followup_delegates (text : String) (tid : String)
    (state : List (String × Bool))
    (hstate : Routing.lastRouteGet state tid = true)
    (hmark :
      Routing.follow_up_indicators.any
          (fun ind => Routing.containsSub (Routing.lowerText text.data) ind) =
        true ∨
      Routing.searchAt Routing.howManyCheck none
          (Routing.lowerText text.data) = true) :
    Routing.is_db_query text (some tid) state = true := by
  have htext : ¬ text = "" := by
    intro h0
    subst h0
    rcases hmark with hm | hm
    · exact absurd hm (by decide)
    · exact absurd hm (by decide)
  rcases hmark with hm | hm <;>
    simp [Routing.is_db_query, htext, hstate, hm]

/-- Claim C6 witness: turn 1 "how many calls failed on 2025-08-10" classifies
as delegate; the proxy records that on thread "t1"; turn 2 "and how many of
those were successful" then classifies as delegate. -/
theorem claim_C6_witness :
    Routing.is_db_query "and how many of those were successful" (some "t1")
      (Routing.routeUpdate [] (some "t1")
        (Routing.is_db_query "how many calls failed on 2025-08-10"
          (some "t1") [])) = true :=
  claim_C6_followup_delegates "and how many of those were successful" "t1"
    (Routing.routeUpdate [] (some "t1")
      (Routing.is_db_query "how many calls failed on 2025-08-10"
        (some "t1") []))
    (by decide) (Or.inl (by decide))

namespace Resilience

lemma tryFallbacks_all_fail (invoke : String → InvokeRes) (e : String)
    (hall : ∀ m, ∃ msg, invoke m = .err msg) :
    ∀ (fb : List String) (current : String) (n : Nat),
      (tryFallbacks invoke e fb current n).result = .err e ∧
        (tryFallbacks invoke e fb current n).rotations ≤ n + fb.length := by
  intro fb
  induction fb with
  | nil => intro current n; exact ⟨rfl, Nat.le_refl n⟩
  | cons fm rest ih =>
    intro current n
    by_cases hc : fm = current
    · have := ih current n
      simp only [tryFallbacks, if_pos hc]
      exact ⟨this.1, Nat.le_trans this.2 (by simp [Nat.add_le_add_iff_left])⟩
    · obtain ⟨msg, hmsg⟩ := hall fm
      have := ih fm (n + 1)
      simp only [tryFallbacks, if_neg hc, hmsg]
      refine ⟨this.1, ?_⟩
      calc (tryFallbacks invoke e rest fm (n + 1)).rotations
          ≤ n + 1 + rest.length := this.2
        _ = n + (rest.length + 1) := by omega
        _ = n + (fm :: rest).length := by simp

lemma rotations_le (invoke : String → InvokeRes) (e : String) :
    ∀ (fb : List String) (current : String) (n : Nat),
      (tryFallbacks invoke e fb current n).rotations ≤ n + fb.length := by
  intro fb
  induction fb with
  | nil => intro current n; exact Nat.le_refl n
  | cons fm rest ih =>
    intro current n
    by_cases hc : fm = current
    · simp only [tryFallbacks, if_pos hc]
      exact Nat.le_trans (ih current n) (by simp [Nat.add_le_add_iff_left])
    · simp only [tryFallbacks, if_neg hc]
      cases hfm : invoke fm with
      | ok v => simp [List.length_cons]
      | err msg =>
        have := ih fm (n + 1)
        simp only []
        calc (tryFallbacks invoke e rest fm (n + 1)).rotations
            ≤ n + 1 + rest.length := this
          _ ≤ n + (fm :: rest).length := by simp; omega


end Resilience

/-- Claim C2 (amended): on a first failure of the model-unavailable class,
`SupervisorProxy.ainvoke` performs at most one recovery attempt per entry of
the fallback list — at most `FALLBACK_MODELS.length` rotations, not one —
and when every fallback also fails the original error is surfaced to the
caller as fatal. -/
theorem claim_C2_bounded_fallback_retries
    (invoke : String → Resilience.InvokeRes) (model_name : String)
    (fallbacks : List String) (e : String)
    (hfirst : invoke model_name = .err e)
    (htrans : Resilience.isModelUnavailable e = true)
    (hall : ∀ m, ∃ msg, invoke m = .err msg) :
    (Resilience.proxy_ainvoke invoke model_name fallbacks).rotations ≤
        fallbacks.length ∧
      (Resilience.proxy_ainvoke invoke model_name fallbacks).result =
        .err e := by
  have h := Resilience.tryFallbacks_all_fail invoke e hall fallbacks model_name 0
  simp only [Resilience.proxy_ainvoke, hfirst, htrans, if_pos]
  exact ⟨by simpa using h.2, h.1⟩

/-- Claim C2 witness: two failing fallbacks give at most two rotations and
the original error back. -/
theorem claim_C2_witness :
    (Resilience.proxy_ainvoke (fun _ => .err "model_not_found: no access")
          "gpt-5-mini" ["gpt-4o-mini", "gpt-4o"]).rotations ≤ 2 ∧
      (Resilience.proxy_ainvoke (fun _ => .err "model_not_found: no access")
          "gpt-5-mini" ["gpt-4o-mini", "gpt-4o"]).result =
        .err "model_not_found: no access" :=
  claim_C2_bounded_fallback_retries
    (fun _ => .err "model_not_found: no access") "gpt-5-mini"
    ["gpt-4o-mini", "gpt-4o"] "model_not_found: no access" rfl (by decide)
    (fun _ => ⟨"model_not_found: no access", rfl⟩)

/-- Claim C2 counterexample: with the default fallback list and every
invocation failing with the transient class, the proxy performs three
rotation-and-replay recovery attempts, not at most one, before surfacing the
original error. -/
theorem claim_C2_counterexample :
    (Resilience.proxy_ainvoke (fun _ => .err "model_not_found: no access")
          "gpt-5-mini" Resilience.FALLBACK_MODELS).rotations = 3 ∧
      2 ≤ (Resilience.proxy_ainvoke
          (fun _ => .err "model_not_found: no access")
          "gpt-5-mini" Resilience.FALLBACK_MODELS).rotations ∧
      (Resilience.proxy_ainvoke (fun _ => .err "model_not_found: no access")
          "gpt-5-mini" Resilience.FALLBACK_MODELS).result =
        .err "model_not_found: no access" := by
  refine ⟨?_, ?_, ?_⟩ <;> decide

/-- Claim C5: the claim says `run_async` blocks for a bounded time and
raises a timeout error past the bound. The code passes no timeout to
`future.result()` in either src/routes/chat.py or src/app.py (the latter
despite its own "2 minute timeout" comment and dead `TimeoutError` handler),
so a never-completing task blocks the caller forever; with any bound the
same wait would end in a timeout error. -/
theorem claim_C5_run_async_unbounded :
    Bridge.chat_run_async_timeout = none ∧
      Bridge.app_run_async_timeout = none ∧
      Bridge.run_async_wait none = Bridge.WaitOutcome.blocksForever ∧
      Bridge.app_run_async_wait none = Bridge.WaitOutcome.blocksForever ∧
      (∀ bound : Nat,
        Bridge.futureResult (some bound) none =
          Bridge.WaitOutcome.timesOut bound) :=
  ⟨rfl, rfl, rfl, rfl, fun _ => rfl⟩

/-- Claim C7: `_rotate_to_model` clears the cached model, data agent and
supervisor but leaves `_checkpointer` untouched, and the lazily rebuilt data
agent and recompiled supervisor are bound to that same checkpointer, so the
checkpointed conversation history survives the rotation. -/
theorem claim_C7_rotation_preserves_checkpointer
    (st : SupervisorState.ModuleState) (fm : String) :
    (SupervisorState.rotate_to_model fm st).checkpointer = st.checkpointer ∧
      (SupervisorState.rotate_to_model fm st).lazy_model = none ∧
      (SupervisorState.rotate_to_model fm st).lazy_data_agent = none ∧
      (SupervisorState.rotate_to_model fm st).lazy_supervisor_agent = none ∧
      (SupervisorState.get_data_agent
          (SupervisorState.rotate_to_model fm st)).1.checkpointer =
        st.checkpointer ∧
      (SupervisorState.compile_supervisor
          (SupervisorState.get_model (SupervisorState.rotate_to_model fm st)).1
          (SupervisorState.rotate_to_model fm st).checkpointer).checkpointer =
        st.checkpointer :=
  ⟨rfl, rfl, rfl, rfl, rfl, rfl⟩

namespace Auth

lemma disconnect_absent (sid : String) (st : WSModel.WSState)
    (hconn : st.active_connections sid = none) :
    WSModel.disconnect sid st = st := by
  have h : WSModel.upd st.active_connections sid none =
      st.active_connections := by
    funext s
    by_cases hs : s = sid
    · subst hs; rw [WSModel.upd_same, hconn]
    · exact WSModel.upd_other _ _ _ _ hs
  show { st with active_connections := WSModel.upd st.active_connections sid none } = st
  rw [h]

end Auth

/-- Claim C8 (amended): evicting an absent session leaves all state
unchanged, and `WebSocketManager.disconnect` on a session with no transport
is a silent no-op; but the `logout` endpoint answers an unknown token with a
400 "Invalid token" error rather than success. -/
theorem claim_C8_evict_absent (sessions : List (String × String))
    (tok : String) (sid : String) (st : WSModel.WSState)
    (habsent : sessions.lookup tok = none)
    (htok : ¬ tok = "")
    (hconn : st.active_connections sid = none) :
    (Auth.logout sessions (some tok)).2 = sessions ∧
      (Auth.logout sessions (some tok)).1.code = 400 ∧
      (Auth.logout sessions (some tok)).1.error = some "Invalid token" ∧
      WSModel.disconnect sid st = st := by
  refine ⟨?_, ?_, ?_, Auth.disconnect_absent sid st hconn⟩ <;>
    simp [Auth.logout, htok, habsent]

/-- Claim C8 witness: an unknown token against a one-entry store and a
disconnect for a session with no transport. -/
theorem claim_C8_witness :
    (Auth.logout [("tokA", "alice")] (some "missing")).2 =
        [("tokA", "alice")] ∧
      (Auth.logout [("tokA", "alice")] (some "missing")).1.code = 400 ∧
      (Auth.logout [("tokA", "alice")] (some "missing")).1.error =
        some "Invalid token" ∧
      WSModel.disconnect "s" WSModel.initWS = WSModel.initWS :=
  claim_C8_evict_absent [("tokA", "alice")] "missing" "s" WSModel.initWS
    rfl (by decide) rfl

/-- Claim C8 counterexample: the claim's "returns successfully rather than
failing" is false for `logout`: an absent token is answered with HTTP 400
and an "Invalid token" error body (the store is indeed unchanged). -/
theorem claim_C8_counterexample :
    (Auth.logout [("tokA", "alice")] (some "missing")).1.code = 400 ∧
      (Auth.logout [("tokA", "alice")] (some "missing")).1.error =
        some "Invalid token" ∧
      (Auth.logout [("tokA", "alice")] (some "missing")).2 =
        [("tokA", "alice")] := by
  refine ⟨?_, ?_, ?_⟩ <;> decide

namespace Chat

lemma bestLoop_some (l : List ChatMsg) (a : String) :
    chooseOf (bestLoop l (some a)) =
      (match l.find? qualifiesJson with
       | some m => some (content m)
       | none => some a) := by
  induction l generalizing a with
  | nil => simp [bestLoop, chooseOf]
  | cons m rest ih =>
    cases m with
    | human c =>
      rw [List.find?_cons_of_neg _ (by simp [qualifiesJson, isAI])]
      simpa [bestLoop, isAI] using ih a
    | other c =>
      rw [List.find?_cons_of_neg _ (by simp [qualifiesJson, isAI])]
      simpa [bestLoop, isAI] using ih a
    | ai c =>
      by_cases h1 : (stripChars c.data).isEmpty
      · rw [List.find?_cons_of_neg _ (by simp [qualifiesJson, content, h1])]
        simpa [bestLoop, isAI, content, h1] using ih a
      · by_cases h2 : hasTransferring c
        · rw [List.find?_cons_of_neg _ (by simp [qualifiesJson, content, h2])]
          simpa [bestLoop, isAI, content, h1, h2] using ih a
        · by_cases h3 : jsonFormattedNoId c
          · rw [List.find?_cons_of_pos _
              (by simp [qualifiesJson, isAI, content, h1, h2, h3])]
            simp [bestLoop, isAI, content, h1, h2, h3, chooseOf]
          · rw [List.find?_cons_of_neg _ (by simp [qualifiesJson, content, h3])]
            simpa [bestLoop, isAI, content, h1, h2, h3] using ih a

lemma bestLoop_none (l : List ChatMsg) :
    chooseOf (bestLoop l none) =
      (match l.find? qualifiesJson with
       | some m => some (content m)
       | none =>
         match l.find? qualifiesText with
         | some m => some (content m)
         | none => none) := by
  induction l with
  | nil => simp [bestLoop, chooseOf]
  | cons m rest ih =>
    cases m with
    | human c =>
      rw [List.find?_cons_of_neg _ (by simp [qualifiesJson, isAI]),
        List.find?_cons_of_neg _ (by simp [qualifiesText, isAI])]
      simpa [bestLoop, isAI] using ih
    | other c =>
      rw [List.find?_cons_of_neg _ (by simp [qualifiesJson, isAI]),
        List.find?_cons_of_neg _ (by simp [qualifiesText, isAI])]
      simpa [bestLoop, isAI] using ih
    | ai c =>
      by_cases h1 : (stripChars c.data).isEmpty
      · rw [List.find?_cons_of_neg _ (by simp [qualifiesJson, content, h1]),
          List.find?_cons_of_neg _ (by simp [qualifiesText, content, h1])]
        simpa [bestLoop, isAI, content, h1] using ih
      · by_cases h2 : hasTransferring c
        · rw [List.find?_cons_of_neg _ (by simp [qualifiesJson, content, h2]),
            List.find?_cons_of_neg _ (by simp [qualifiesText, content, h2])]
          simpa [bestLoop, isAI, content, h1, h2] using ih
        · by_cases h3 : jsonFormattedNoId c
          · rw [List.find?_cons_of_pos _
              (by simp [qualifiesJson, isAI, content, h1, h2, h3])]
            simp [bestLoop, isAI, content, h1, h2, h3, chooseOf]
          · rw [List.find?_cons_of_neg _
                (by simp [qualifiesJson, content, h3]),
              List.find?_cons_of_pos _
                (by simp [qualifiesText, isAI, content, h1, h2])]
            have hred : bestLoop (ChatMsg.ai c :: rest) none =
                bestLoop rest (some c) := by
              simp [bestLoop, isAI, content, h1, h2, h3]
            rw [hred, bestLoop_some rest c]
            cases rest.find? qualifiesJson <;> simp [content]

end Chat

/-- Claim C9 (amended): `extract_best_response` draws only from the messages
after the last `HumanMessage` and returns: the most recent non-empty
non-"transferring" `AIMessage` whose content is a JSON array whose first
element is an object without `_id`, when one exists; otherwise the most
recent non-empty non-"transferring" `AIMessage` content; otherwise the last
message's content; and the empty string when no message follows the last
`HumanMessage`. (The unamended claim omits the "transferring"/non-empty
filter on the JSON candidate and the last-message fallback.) -/
theorem claim_C9_extract_best_response (messages : List Chat.ChatMsg) :
    Chat.extract_best_response messages = Chat.specExtract messages := by
  have hbridge :
      Chat.extract_best_response messages =
        (match Chat.chooseOf
            (Chat.bestLoop (Chat.recentOf messages).reverse none) with
         | some s => s
         | none =>
           match (Chat.recentOf messages).getLast? with
           | some m => Chat.content m
           | none => "") := by
    simp only [Chat.extract_best_response]
    rcases hb : Chat.bestLoop (Chat.recentOf messages).reverse none with ⟨fo, tacc⟩
    cases fo <;> cases tacc <;> simp [Chat.chooseOf]
  rw [hbridge, Chat.bestLoop_none]
  simp only [Chat.specExtract]
  cases hj : (Chat.recentOf messages).reverse.find? Chat.qualifiesJson with
  | some m => simp
  | none =>
    cases ht : (Chat.recentOf messages).reverse.find? Chat.qualifiesText with
    | some m => simp
    | none => simp

/-- Claim C9 counterexample: the most recent `AIMessage` after the last
`HumanMessage` carries a JSON array whose first object lacks `_id`, yet
`extract_best_response` skips it (its content contains "transferring") and
returns the older JSON message instead of the most recent one. -/
theorem claim_C9_counterexample :
    Chat.extract_best_response
        [Chat.ChatMsg.human "q",
         Chat.ChatMsg.ai "[\x7b\"x\": 1\x7d]",
         Chat.ChatMsg.ai "[\x7b\"a\": \"transferring\"\x7d]"] =
        "[\x7b\"x\": 1\x7d]" ∧
      Chat.jsonFormattedNoId "[\x7b\"a\": \"transferring\"\x7d]" = true ∧
      Chat.extract_best_response
          [Chat.ChatMsg.human "q",
           Chat.ChatMsg.ai "[\x7b\"x\": 1\x7d]",
           Chat.ChatMsg.ai "[\x7b\"a\": \"transferring\"\x7d]"] ≠
        "[\x7b\"a\": \"transferring\"\x7d]" := by
  refine ⟨?_, ?_, ?_⟩ <;> decide
